import Mathlib

/-!
Verification of the fire-escape compiler backend (semantic analysis and code
generation) against its design document.  The definitions below are a shallow
embedding of the Python sources under `src/fire_escape/`:

* `error.py`     : `Position`, the exception taxonomy, `node_error_attributer`
* `type_check.py`: the conversion lattice (`TypeEnv.new`), `is_convertable_to`,
                   `lub_type`, the operator rules (`check_unary`, `check_binary`,
                   `check_call`, `check_assign`, `check_update`), `get_type`
                   and the `check_type` pass
* `parser.py`    : the scope-building define step, `collect_local_varaibles`
* `ast_nodes.py` : the AST node model and `Ref.value`
* `codegen.py`   : `mangle`, `BUILTIN_FN_NAME` and `codegen_expr`

Python exceptions are modelled by returning `Except Exc`; an uncaught Python
exception of class `C` corresponds to `.error e` with `e.kind` naming `C`.
-/

/-- `error.Position`: `(file, line, col)` attached to nodes and diagnostics. -/
structure Position where
  file : String
  line : Nat
  col : Nat
deriving DecidableEq, Repr

/-- The Python exception classes that the sources raise or handle.
`parseError`, `referenceError`, `typeError` are the `CodeError` subclasses from
`error.py`; `compilerError` is `CompilerError`; the remaining kinds stand for
the interpreter-raised exceptions the code can produce (`assert` failures,
missing dict keys, missing attributes, plain `RuntimeError`). -/
inductive ExcKind where
  | parseError
  | referenceError
  | typeError
  | compilerError
  | assertionError
  | keyError
  | attributeError
  | runtimeError
deriving DecidableEq, Repr

/-- A raised Python exception: its class, message, and - for the `CodeError`
family - the optional source position stored on the exception object. -/
structure Exc where
  kind : ExcKind
  msg : String
  pos : Option Position
deriving DecidableEq, Repr

/-- Membership in the `CodeError` family of `error.py` (the user-code errors). -/
def ExcKind.isCodeError : ExcKind → Bool
  | .parseError => true
  | .referenceError => true
  | .typeError => true
  | _ => false

/-- Raising `TypeError(message)` from `error.py` (no position passed). -/
def TypeError (message : String) : Exc := { kind := .typeError, msg := message, pos := none }

/-- Raising `ReferenceError(message, pos)` from `error.py`. -/
def ReferenceError (message : String) (pos : Option Position) : Exc :=
  { kind := .referenceError, msg := message, pos := pos }

/-- Raising `CompilerError(message)` from `error.py`. -/
def CompilerError (message : String) : Exc := { kind := .compilerError, msg := message, pos := none }

/-- A failing `assert` statement (Python `AssertionError`). -/
def AssertionError (message : String) : Exc := { kind := .assertionError, msg := message, pos := none }

/-! ## The conversion lattice (`TypeEnv.new`, `type_check.py` lines 19-31)

`TypeEnv.new` builds a `networkx.DiGraph` with the paths
`bool→uint→int→float`, `i8→i16→i32→i64→int`, `u8→u16→u32→u64→uint`,
`f32→f64→float` and the isolated node `str`.  Every node of that graph has at
most one outgoing edge, so the graph is faithfully represented by the finite
node type `PrimTy` together with the successor function `succP`; reachability
(`nx.has_path`) is following the successor chain. -/

/-- The nodes of the conversion graph built by `TypeEnv.new`. -/
inductive PrimTy where
  | bool | uint | int | float
  | i8 | i16 | i32 | i64
  | u8 | u16 | u32 | u64
  | f32 | f64 | str
deriving DecidableEq, Repr, Fintype

/-- The name under which each graph node is registered. -/
def tyName : PrimTy → String
  | .bool => "bool"
  | .uint => "uint"
  | .int => "int"
  | .float => "float"
  | .i8 => "i8"
  | .i16 => "i16"
  | .i32 => "i32"
  | .i64 => "i64"
  | .u8 => "u8"
  | .u16 => "u16"
  | .u32 => "u32"
  | .u64 => "u64"
  | .f32 => "f32"
  | .f64 => "f64"
  | .str => "str"

/-- Membership test `name in env.graph`, resolving a type name to its node. -/
def lookupTy : String → Option PrimTy
  | "bool" => some .bool
  | "uint" => some .uint
  | "int" => some .int
  | "float" => some .float
  | "i8" => some .i8
  | "i16" => some .i16
  | "i32" => some .i32
  | "i64" => some .i64
  | "u8" => some .u8
  | "u16" => some .u16
  | "u32" => some .u32
  | "u64" => some .u64
  | "f32" => some .f32
  | "f64" => some .f64
  | "str" => some .str
  | _ => none

/-- The unique outgoing edge of each node of the conversion graph:
`nx.add_path` lines of `TypeEnv.new` read off edge by edge. -/
def succP : PrimTy → Option PrimTy
  | .bool => some .uint
  | .uint => some .int
  | .int => some .float
  | .float => none
  | .i8 => some .i16
  | .i16 => some .i32
  | .i32 => some .i64
  | .i64 => some .int
  | .u8 => some .u16
  | .u16 => some .u32
  | .u32 => some .u64
  | .u64 => some .uint
  | .f32 => some .f64
  | .f64 => some .float
  | .str => none

/-- Directed reachability along the successor chain, with fuel.  The longest
chain in the graph has 6 edges, so any fuel of at least 15 is exact. -/
def reachP : Nat → PrimTy → PrimTy → Bool
  | 0, x, y => x = y
  | fuel + 1, x, y =>
    if x = y then true
    else
      match succP x with
      | none => false
      | some z => reachP fuel z y

/-- `nx.has_path(self.graph, child, ancestor)` on the conversion graph. -/
def hasPathP (x y : PrimTy) : Bool := reachP 16 x y

/-- The names registered in the conversion graph, in registration order. -/
def primTypeNames : List String :=
  ["bool", "uint", "int", "float",
   "i8", "i16", "i32", "i64",
   "u8", "u16", "u32", "u64",
   "f32", "f64", "str"]

/-- `TypeEnv.is_convertable_to` (`type_check.py` lines 33-40): equal names are
convertible; otherwise both names must be graph nodes joined by a path. -/
def is_convertable_to (child ancestor : String) : Bool :=
  if child = ancestor then true
  else
    match lookupTy child, lookupTy ancestor with
    | some c, some a => hasPathP c a
    | _, _ => false

/-- The successor chain of a node (itself, its successor, ...), with fuel.
In the reversed graph this is exactly the set of ancestors of the node. -/
def chainUp : Nat → PrimTy → List PrimTy
  | 0, x => [x]
  | fuel + 1, x =>
    match succP x with
    | none => [x]
    | some z => x :: chainUp fuel z

/-- `nx.lowest_common_ancestor(self.graph.reverse(), type1, type2)`: in the
reversed graph the ancestors of a node are its successor chain in the original
graph, and because the two chains converge, the lowest common ancestor is the
first element of one chain that occurs in the other (or `None`). -/
def lubP (x y : PrimTy) : Option PrimTy :=
  (chainUp 16 x).find? (fun t => decide (t ∈ chainUp 16 y))

/-- `TypeEnv.lub_type` (`type_check.py` lines 42-49): `None` when either name
is outside the graph, else the lowest common ancestor in the reversed graph. -/
def lub_type (type1 type2 : String) : Option String :=
  match lookupTy type1, lookupTy type2 with
  | some x, some y => (lubP x y).map tyName
  | _, _ => none

/-! ## Operator typing rules (`TypeEnv` methods, `type_check.py` lines 51-143) -/

/-- `TypeEnv.check_unary`. -/
def check_unary (op arg_type : String) : Except Exc String :=
  if op = "-" then
    if ¬ is_convertable_to arg_type "float" then
      .error (TypeError ("Unary - not supported for type " ++ arg_type))
    else if is_convertable_to arg_type "int" then .ok "int"
    else .ok "float"
  else if op = "not" then
    if ¬ is_convertable_to arg_type "float" then
      .error (TypeError ("Unary not not supported for type " ++ arg_type))
    else .ok "bool"
  else .error (CompilerError ("Unexpected unary operator: " ++ op))

/-- `TypeEnv.check_binary` (`type_check.py` lines 67-110).  The `assert rtype
is not None` statements are modelled as `AssertionError` results. -/
def check_binary (op type1 type2 : String) : Except Exc String :=
  if op = "or" ∨ op = "and" then
    if ¬ is_convertable_to type1 "float" then
      .error (TypeError ("Binary " ++ op ++ " not supported for type " ++ type1))
    else if ¬ is_convertable_to type2 "float" then
      .error (TypeError ("Binary " ++ op ++ " not supported for type " ++ type2))
    else .ok "bool"
  else if op = "==" ∨ op = "!=" then
    if type1 ≠ type2 then
      if ¬ is_convertable_to type1 "float" then
        .error (TypeError ("Binary " ++ op ++ " not supported for type " ++ type1))
      else if ¬ is_convertable_to type2 "float" then
        .error (TypeError ("Binary " ++ op ++ " not supported for type " ++ type2))
      else .ok "bool"
    else .ok "bool"
  else if op = ">" ∨ op = ">=" ∨ op = "<" ∨ op = "<=" then
    if ¬ is_convertable_to type1 "float" then
      .error (TypeError ("Binary " ++ op ++ " not supported for type " ++ type1))
    else if ¬ is_convertable_to type2 "float" then
      .error (TypeError ("Binary " ++ op ++ " not supported for type " ++ type2))
    else .ok "bool"
  else if op = "+" ∨ op = "-" ∨ op = "*" ∨ op = "/" then
    if ¬ is_convertable_to type1 "float" then
      .error (TypeError ("Binary " ++ op ++ " not supported for type " ++ type1))
    else if ¬ is_convertable_to type2 "float" then
      .error (TypeError ("Binary " ++ op ++ " not supported for type " ++ type2))
    else
      match lub_type type1 type2 with
      | none => .error (AssertionError "rtype is not None")
      | some rtype => .ok rtype
  else if op = "%" then
    if ¬ is_convertable_to type1 "int" then
      .error (TypeError ("Binary " ++ op ++ " not supported for type " ++ type1))
    else if ¬ is_convertable_to type2 "int" then
      .error (TypeError ("Binary " ++ op ++ " not supported for type " ++ type2))
    else
      match lub_type type1 type2 with
      | none => .error (AssertionError "rtype is not None")
      | some rtype => .ok rtype
  else if op = "**" then
    if ¬ is_convertable_to type1 "float" then
      .error (TypeError ("Binary " ++ op ++ " not supported for type " ++ type1))
    else if ¬ is_convertable_to type2 "float" then
      .error (TypeError ("Binary " ++ op ++ " not supported for type " ++ type2))
    else .ok "float"
  else .error (CompilerError ("Unexpected binary operator: " ++ op))

/-- The argument loop of `TypeEnv.check_call`: `enumerate(zip(ptypes, atypes), 1)`
with the first non-convertible argument raising `TypeError`. -/
def check_call_args (i : Nat) : List (String × String) → Except Exc Unit
  | [] => .ok ()
  | (ptype, atype) :: rest =>
    if ¬ is_convertable_to atype ptype then
      .error (TypeError ("Parameter count mismatch: argument " ++ toString i ++
        ": Cant convert argument of type " ++ atype ++ " to " ++ ptype))
    else check_call_args (i + 1) rest

/-- `TypeEnv.check_call` (`type_check.py` lines 112-122). -/
def check_call (ptypes : List String) (rtype : String) (atypes : List String) :
    Except Exc String :=
  if ¬ (ptypes.length = atypes.length) then
    .error (TypeError ("Parameter count mismatch: expected " ++ toString ptypes.length ++
      ", got " ++ toString atypes.length))
  else do
    check_call_args 1 (ptypes.zip atypes)
    .ok rtype

/-- `TypeEnv.check_assign` (`type_check.py` lines 124-128).  The source formats
`ltype` and `rtype` into the message in swapped roles; the text is kept as is. -/
def check_assign (ltype rtype : String) : Except Exc Unit :=
  if ¬ is_convertable_to rtype ltype then
    .error (TypeError ("Cant assign expression of type " ++ ltype ++
      " to variable of type " ++ rtype))
  else .ok ()

/-- `TypeEnv.check_update` (`type_check.py` lines 130-142). -/
def check_update (op ltype rtype : String) : Except Exc Unit :=
  if op = "+=" ∨ op = "-=" ∨ op = "*=" ∨ op = "/=" then
    if ¬ is_convertable_to ltype "float" then
      .error (TypeError ("Binary " ++ op ++ " not supported for type " ++ ltype))
    else if ¬ is_convertable_to rtype "float" then
      .error (TypeError ("Binary " ++ op ++ " not supported for type " ++ rtype))
    else if ¬ is_convertable_to rtype ltype then
      .error (TypeError ("Cant assign expression of type " ++ ltype ++
        " to variable of type " ++ rtype))
    else .ok ()
  else .error (CompilerError ("Unexpected update operator: " ++ op))

/-! ## Lattice facts used by the claims -/

/-- Path transitivity on the finite conversion graph. -/
lemma hasPathP_trans : ∀ x y z : PrimTy,
    hasPathP x y = true → hasPathP y z = true → hasPathP x z = true := by decide

/-- Every graph node name resolves, and resolves to a node whose name it is. -/
lemma lookupTy_tyName : ∀ x : PrimTy, lookupTy (tyName x) = some x := by decide

/-- If both nodes reach `float`, the chains share `float`, so a lowest common
ancestor in the reversed graph exists. -/
lemma lubP_isSome_of_reach_float : ∀ x y : PrimTy,
    hasPathP x .float = true → hasPathP y .float = true → (lubP x y).isSome = true := by
  decide

/-- If both nodes reach `int`, a lowest common ancestor exists. -/
lemma lubP_isSome_of_reach_int : ∀ x y : PrimTy,
    hasPathP x .int = true → hasPathP y .int = true → (lubP x y).isSome = true := by
  decide

/-- Convertibility is transitive on arbitrary type names (helper shared by the
lattice claims). -/
lemma is_convertable_to_trans (a b c : String)
    (hab : is_convertable_to a b = true) (hbc : is_convertable_to b c = true) :
    is_convertable_to a c = true := by
  by_cases heab : a = b
  · subst heab; exact hbc
  · by_cases hebc : b = c
    · subst hebc; exact hab
    · unfold is_convertable_to at hab hbc
      rw [if_neg heab] at hab
      rw [if_neg hebc] at hbc
      rcases h1 : lookupTy a with _ | x <;> rw [h1] at hab
      · simp at hab
      · rcases h2 : lookupTy b with _ | y <;> rw [h2] at hab hbc
        · simp at hab
        · rcases h3 : lookupTy c with _ | z <;> rw [h3] at hbc
          · simp at hbc
          · unfold is_convertable_to
            by_cases heac : a = c
            · rw [if_pos heac]
            · rw [if_neg heac, h1, h3]
              exact hasPathP_trans x y z hab hbc

/-- A name convertible to a graph node name is itself a graph node, with a path
to that node. -/
lemma conv_to_node (t : String) (x : PrimTy) (h : is_convertable_to t (tyName x) = true) :
    ∃ c, lookupTy t = some c ∧ hasPathP c x = true := by
  by_cases he : t = tyName x
  · subst he
    exact ⟨x, lookupTy_tyName x, by revert x; decide⟩
  · unfold is_convertable_to at h
    rw [if_neg he] at h
    rcases h1 : lookupTy t with _ | c
    · rw [h1, lookupTy_tyName x] at h
      simp at h
    · rw [h1, lookupTy_tyName x] at h
      exact ⟨c, rfl, h⟩

/-- C7. The convertibility relation of `TypeEnv` is reflexive on every declared
primitive type name and transitive on all type names: `is_convertable_to t t`
holds for each name registered by `TypeEnv.new`, and a path from `a` to `b`
composed with a path from `b` to `c` yields a path from `a` to `c`. -/
theorem is_convertable_to_refl_and_trans :
    (∀ t ∈ primTypeNames, is_convertable_to t t = true) ∧
    (∀ a b c : String, is_convertable_to a b = true → is_convertable_to b c = true →
      is_convertable_to a c = true) := by
  constructor
  · intro t _
    simp [is_convertable_to]
  · exact is_convertable_to_trans

/-- Witness for C7 at concrete inputs: reflexivity at `"int"` and transitivity
along `"bool" → "uint" → "float"`. -/
theorem is_convertable_to_refl_and_trans_witness :
    is_convertable_to "int" "int" = true ∧ is_convertable_to "bool" "float" = true :=
  ⟨is_convertable_to_refl_and_trans.1 "int" (by decide),
   is_convertable_to_refl_and_trans.2 "bool" "uint" "float" (by decide) (by decide)⟩

/-- C6. Binary `**`: whenever both operand types convert to `float` the result
type is `float` (in particular for two `int` operands), and a `TypeError` is
raised when either operand type does not convert to `float`. -/
theorem binary_exponentiation_results_float (type1 type2 : String) :
    (is_convertable_to type1 "float" = true → is_convertable_to type2 "float" = true →
      check_binary "**" type1 type2 = .ok "float") ∧
    (is_convertable_to type1 "float" = false →
      check_binary "**" type1 type2 =
        .error (TypeError ("Binary ** not supported for type " ++ type1))) ∧
    (is_convertable_to type1 "float" = true → is_convertable_to type2 "float" = false →
      check_binary "**" type1 type2 =
        .error (TypeError ("Binary ** not supported for type " ++ type2))) := by
  refine ⟨fun h1 h2 => ?_, fun h1 => ?_, fun h1 h2 => ?_⟩
  · simp [check_binary, h1, h2]
  · simp [check_binary, h1]
  · simp [check_binary, h1, h2]

/-- Witness for C6: `1 ** 2` has both operands of type `int`, convertible to
`float`, and the result type is `float`. -/
theorem binary_exponentiation_results_float_witness :
    check_binary "**" "int" "int" = .ok "float" :=
  (binary_exponentiation_results_float "int" "int").1 (by decide) (by decide)

/-- C10. In `check_binary`, for `+`, `-`, `*`, `/` under the two
convertibility-to-`float` guards (resp. for `%` under the two
convertibility-to-`int` guards) `lub_type` is defined, so the `assert rtype is
not None` can never fail and the branch returns the lub. -/
theorem arith_lub_defined_under_convertibility (op type1 type2 : String) :
    ((op = "+" ∨ op = "-" ∨ op = "*" ∨ op = "/") →
      is_convertable_to type1 "float" = true → is_convertable_to type2 "float" = true →
      ∃ r, lub_type type1 type2 = some r ∧ check_binary op type1 type2 = .ok r) ∧
    (op = "%" →
      is_convertable_to type1 "int" = true → is_convertable_to type2 "int" = true →
      ∃ r, lub_type type1 type2 = some r ∧ check_binary op type1 type2 = .ok r) := by
  constructor
  · intro hop h1 h2
    obtain ⟨x, hx, hxf⟩ := conv_to_node type1 .float h1
    obtain ⟨y, hy, hyf⟩ := conv_to_node type2 .float h2
    have hsome : (lubP x y).isSome = true := lubP_isSome_of_reach_float x y hxf hyf
    rcases hl : lubP x y with _ | r
    · rw [hl] at hsome; simp at hsome
    · refine ⟨tyName r, ?_, ?_⟩
      · simp [lub_type, hx, hy, hl]
      · have hlub : lub_type type1 type2 = some (tyName r) := by
          simp [lub_type, hx, hy, hl]
        rcases hop with h | h | h | h <;> subst h <;>
          simp [check_binary, h1, h2, hlub]
  · intro hop h1 h2
    subst hop
    obtain ⟨x, hx, hxf⟩ := conv_to_node type1 .int h1
    obtain ⟨y, hy, hyf⟩ := conv_to_node type2 .int h2
    have hsome : (lubP x y).isSome = true := lubP_isSome_of_reach_int x y hxf hyf
    rcases hl : lubP x y with _ | r
    · rw [hl] at hsome; simp at hsome
    · refine ⟨tyName r, ?_, ?_⟩
      · simp [lub_type, hx, hy, hl]
      · have hlub : lub_type type1 type2 = some (tyName r) := by
          simp [lub_type, hx, hy, hl]
        simp [check_binary, h1, h2, hlub]

/-- Witness for C10: `int + f32` passes both guards, and the lub `float` is
returned. -/
theorem arith_lub_defined_under_convertibility_witness :
    ∃ r, lub_type "int" "f32" = some r ∧ check_binary "+" "int" "f32" = .ok r :=
  (arith_lub_defined_under_convertibility "+" "int" "f32").1 (Or.inl rfl)
    (by decide) (by decide)

/-! ## Declarations and the scope chain

`ast_nodes.py` stores scopes as `collections.ChainMap[str, Any]` objects:
`maps` is a nonempty list of dicts, innermost first; lookup walks the maps in
order; `new_child()` prepends a fresh dict; item assignment writes to
`maps[0]`.  A frame is modelled as an association list in dict insertion
order (keys unique), and a chain as the list of frames. -/

/-- `ast_nodes.TypeRef`: a type annotation with its `const` qualifier. -/
structure TypeRefNode where
  isConst : Bool
  name : String
  pos : Position
deriving DecidableEq, Repr

/-- `ast_nodes.LocalVariable`: a declared local variable. -/
structure LocalVarNode where
  name : String
  type : TypeRefNode
  pos : Position
deriving DecidableEq, Repr

/-- `ast_nodes.Parameter`: a function parameter declaration. -/
structure ParameterNode where
  name : String
  type : TypeRefNode
  pos : Position
deriving DecidableEq, Repr

/-- The values that scope frames map names to.  `localVariable`, `parameter`,
`builtinFunc` (`builtins.BuiltinFunc`) and `builtinConst`
(`builtins.BuiltinConst`) carry the fields the verified code paths read;
`funcDecl` stands for a registered `Func` AST node, of which those paths only
inspect the class tag (it always falls into their catch-all branches). -/
inductive Decl where
  | localVariable (v : LocalVarNode)
  | parameter (p : ParameterNode)
  | builtinFunc (name : String) (ptypes : List String) (rtype : String)
  | builtinConst (name : String) (type : String)
  | funcDecl (name : String)
deriving DecidableEq, Repr

/-- One scope frame: a dict from name to declaration, in insertion order. -/
abbrev Frame := List (String × Decl)

/-- A `ChainMap`: its `maps` list of frames, innermost first. -/
abbrev Chain := List Frame

/-- Dict lookup in one frame. -/
def lookupFrame : Frame → String → Option Decl
  | [], _ => none
  | (k, v) :: rest, name => if k = name then some v else lookupFrame rest name

/-- `ChainMap.__getitem__`: search the maps innermost to outermost, return the
first binding found (`None` here standing for the `KeyError` case). -/
def chainGet : Chain → String → Option Decl
  | [], _ => none
  | f :: rest, name =>
    match lookupFrame f name with
    | some v => some v
    | none => chainGet rest name

/-- `ChainMap.new_child()`: prepend a fresh empty dict. -/
def new_child (c : Chain) : Chain := [] :: c

/-- `Ref.value` (`ast_nodes.py` lines 69-75): assert the scope was recorded,
look the name up in the chain, turn `KeyError` into `ReferenceError`. -/
def refValue (scope : Option Chain) (name : String) : Except Exc Decl :=
  match scope with
  | none => .error (AssertionError "self.scope is not None")
  | some c =>
    match chainGet c name with
    | some v => .ok v
    | none => .error (ReferenceError (name ++ " not defined") none)

/-- The registration step of `build_scope` (`parser.py` lines 369-377, likewise
lines 355-362 for `Func` names): a `ReferenceError` carrying the declaration
position if the name is already in `scope.maps[0]`, else insertion into
`maps[0]`.  `ChainMap.maps` is never empty; the `[]` case is unreachable and
modelled as the `IndexError` a `maps[0]` access would raise. -/
def build_scope_define (c : Chain) (name : String) (d : Decl) (pos : Position) :
    Except Exc Chain :=
  match c with
  | [] => .error { kind := .runtimeError, msg := "IndexError", pos := none }
  | f :: rest =>
    match lookupFrame f name with
    | some _ => .error (ReferenceError (name ++ " has already been defined.") (some pos))
    | none => .ok ((f ++ [(name, d)]) :: rest)

/-- `error.node_error_attributer`: the wrapper every auxiliary pass function is
decorated with.  A `CodeError` without a position gets the visited node
position; a positioned `CodeError` and a `CompilerError` pass through; any
other exception is wrapped into a `CompilerError`. -/
def node_error_attributer {α : Type} (node_pos : Position) (r : Except Exc α) :
    Except Exc α :=
  match r with
  | .ok v => .ok v
  | .error e =>
    if e.kind.isCodeError then
      match e.pos with
      | none => .error { e with pos := some node_pos }
      | some _ => .error e
    else if e.kind = .compilerError then .error e
    else .error { kind := .compilerError, msg := "node=...: " ++ e.msg, pos := none }

/-! ## Scope-chain facts used by the claims -/

/-- Frames that do not define the name are skipped by the chain lookup. -/
lemma chainGet_append_of_none (name : String) (pre rest : Chain)
    (h : ∀ g ∈ pre, lookupFrame g name = none) :
    chainGet (pre ++ rest) name = chainGet rest name := by
  induction pre with
  | nil => rfl
  | cons f pre ih =>
    have hf : lookupFrame f name = none := h f (List.mem_cons_self f pre)
    simp only [List.cons_append, chainGet, hf]
    exact ih (fun g hg => h g (List.mem_cons_of_mem f hg))

/-- C1. `Ref.value` resolution over the recorded chain: the binding of the
nearest frame that defines the name is returned - in particular a frame closer
to the reference (such as a function private frame) hides any ancestor frame
(such as the program root) - and when no frame in the chain defines the name,
resolution fails with a `ReferenceError`. -/
theorem resolve_searches_innermost_to_outermost (name : String) :
    (∀ (pre : Chain) (f : Frame) (post : Chain) (d : Decl),
      (∀ g ∈ pre, lookupFrame g name = none) → lookupFrame f name = some d →
      refValue (some (pre ++ f :: post)) name = .ok d) ∧
    (∀ chain : Chain, (∀ g ∈ chain, lookupFrame g name = none) →
      refValue (some chain) name =
        .error (ReferenceError (name ++ " not defined") none)) := by
  constructor
  · intro pre f post d hpre hf
    have h1 : chainGet (pre ++ f :: post) name = some d := by
      rw [chainGet_append_of_none name pre (f :: post) hpre]
      simp [chainGet, hf]
    simp [refValue, h1]
  · intro chain hnone
    have h1 : chainGet chain name = none := by
      have := chainGet_append_of_none name chain [] hnone
      simpa using this
    simp [refValue, h1]

/-- Witness for C1: a chain of a function private frame over the root frame,
both defining `"x"`; resolution returns the function frame binding, and an
unknown name fails with `ReferenceError`. -/
theorem resolve_searches_innermost_to_outermost_witness :
    refValue
      (some [[("x", Decl.funcDecl "inner")], [("x", Decl.funcDecl "outer")]]) "x" =
      .ok (Decl.funcDecl "inner") ∧
    refValue (some [[("x", Decl.funcDecl "inner")]]) "y" =
      .error (ReferenceError ("y" ++ " not defined") none) :=
  ⟨(resolve_searches_innermost_to_outermost "x").1
      [] [("x", Decl.funcDecl "inner")] [[("x", Decl.funcDecl "outer")]]
      (Decl.funcDecl "inner") (by intro g hg; cases hg) (by decide),
   (resolve_searches_innermost_to_outermost "y").2
      [[("x", Decl.funcDecl "inner")]] (by decide)⟩

/-- C2. The `build_scope` registration step: defining a name already present in
the innermost frame raises a `ReferenceError` carrying the declaration
position, while registering the same name into a freshly opened child frame
(shadowing a binding of an outer frame) succeeds. -/
theorem define_rejects_duplicate_allows_shadowing (name : String) (d : Decl) (p : Position) :
    (∀ (f : Frame) (rest : Chain) (d0 : Decl), lookupFrame f name = some d0 →
      build_scope_define (f :: rest) name d p =
        .error (ReferenceError (name ++ " has already been defined.") (some p))) ∧
    (∀ (c : Chain) (d0 : Decl), chainGet c name = some d0 →
      build_scope_define (new_child c) name d p = .ok ([(name, d)] :: c)) := by
  constructor
  · intro f rest d0 h
    simp [build_scope_define, h]
  · intro c d0 _
    simp [build_scope_define, new_child, lookupFrame]

/-- Witness for C2: redefining `"n"` in its own frame fails with
`ReferenceError`; redefining it in a fresh child frame succeeds. -/
theorem define_rejects_duplicate_allows_shadowing_witness :
    build_scope_define [[("n", Decl.funcDecl "f")]] "n" (Decl.funcDecl "g")
        { file := "t", line := 3, col := 1 } =
      .error (ReferenceError ("n" ++ " has already been defined.")
        (some { file := "t", line := 3, col := 1 })) ∧
    build_scope_define (new_child [[("n", Decl.funcDecl "f")]]) "n" (Decl.funcDecl "g")
        { file := "t", line := 3, col := 1 } =
      .ok ([("n", Decl.funcDecl "g")] :: [[("n", Decl.funcDecl "f")]]) :=
  ⟨(define_rejects_duplicate_allows_shadowing "n" (Decl.funcDecl "g")
      { file := "t", line := 3, col := 1 }).1
      [("n", Decl.funcDecl "f")] [] (Decl.funcDecl "f") (by decide),
   (define_rejects_duplicate_allows_shadowing "n" (Decl.funcDecl "g")
      { file := "t", line := 3, col := 1 }).2
      [[("n", Decl.funcDecl "f")]] (Decl.funcDecl "f") (by decide)⟩

/-! ## The expression AST and the type-checking pass

`check_type` (`type_check.py` lines 177-235) is a recursive walk: each
invocation runs a `try` block (recursion over the generic `children` list,
then a match on the node kind that annotates or validates it) under an
`except CodeError` handler.  The handler body is

  `e.line = node.line if e.line is None else e.line`

but `CodeError` objects define `pos`, not `line`, and `AstNode` defines `pos`,
not `line`, so evaluating `e.line` raises `AttributeError`: every `CodeError`
crossing the handler is replaced by an unpositioned `AttributeError`.  That
handler is modelled by `check_type_except_handler`.  In-place `type`
annotation is modelled by returning the annotated node. -/

/-- The `except CodeError` handler of `check_type` (`type_check.py` lines
232-235): a `CodeError` is caught, the handler evaluates `e.line` - an
attribute neither `CodeError` nor the node has - and raises `AttributeError`;
other exceptions are not caught. -/
def check_type_except_handler {α : Type} (r : Except Exc α) : Except Exc α :=
  match r with
  | .ok v => .ok v
  | .error e =>
    if e.kind.isCodeError then
      .error { kind := .attributeError, msg := "CodeError object has no attribute line",
               pos := none }
    else .error e

/-- `ast_nodes.Ref`: a name occurrence, with the chain recorded on it by
`build_scope` (`None` before that pass). -/
structure RefNode where
  name : String
  scope : Option Chain
  pos : Position
deriving DecidableEq, Repr

/-- The expression nodes of `ast_nodes.py` (the `Expression` union without
`JsonExpr`, which none of the verified paths construct).  The `type` slot of
operator and call nodes is the annotation filled by `check_type`.  A `Float`
literal keeps the decimal text that `str(value)` renders, since only the node
kind is consulted by checking and code generation. -/
inductive Expr where
  | boolLit (value : Bool) (pos : Position)
  | intLit (value : Int) (pos : Position)
  | floatLit (valueStr : String) (pos : Position)
  | strLit (value : String) (pos : Position)
  | ref (r : RefNode)
  | unary (op : String) (arg : Expr) (type : Option String) (pos : Position)
  | binary (left : Expr) (op : String) (right : Expr) (type : Option String) (pos : Position)
  | funcCall (func : RefNode) (args : List Expr) (type : Option String) (pos : Position)
deriving Repr

/-- `BuiltinFunc.type` (`builtins.py`): the rendered function-type signature. -/
def builtinFuncType (ptypes : List String) (rtype : String) : String :=
  "(" ++ String.intercalate ", " ptypes ++ ") -> " ++ rtype

/-- Stand-in for the Python repr of a scope value interpolated into error
messages (exact repr text is interpreter detail; only the error kind and the
mentioning of the object matter to the verified claims). -/
def declStr : Decl → String
  | .localVariable v => "LocalVariable " ++ v.name
  | .parameter p => "Parameter " ++ p.name
  | .builtinFunc n _ _ => "BuiltinFunc " ++ n
  | .builtinConst n _ => "BuiltinConst " ++ n
  | .funcDecl n => "Func " ++ n

/-- `get_type` (`type_check.py` lines 145-174): literals have fixed types; a
`Ref` dereferences its binding (`LocalVariable` declared type, `BuiltinFunc`
signature, anything else `RuntimeError`); operator and call nodes return their
annotation slot, whose emptiness is an `assert` failure. -/
def get_type : Expr → Except Exc String
  | .boolLit _ _ => .ok "bool"
  | .intLit _ _ => .ok "int"
  | .floatLit _ _ => .ok "float"
  | .strLit _ _ => .ok "str"
  | .ref r => do
    let obj ← refValue r.scope r.name
    match obj with
    | .localVariable v => .ok v.type.name
    | .builtinFunc _ ptypes rtype => .ok (builtinFuncType ptypes rtype)
    | other => .error { kind := .runtimeError, msg := "Unknown type obj=" ++ declStr other,
                        pos := none }
  | .unary _ _ ty _ =>
    match ty with
    | some t => .ok t
    | none => .error (AssertionError "expr.type is not None")
  | .binary _ _ _ ty _ =>
    match ty with
    | some t => .ok t
    | none => .error (AssertionError "expr.type is not None")
  | .funcCall _ _ ty _ =>
    match ty with
    | some t => .ok t
    | none => .error (AssertionError "call.type is not None")

/-- `[get_type(arg) for arg in call.args]`. -/
def get_type_list : List Expr → Except Exc (List String)
  | [] => .ok []
  | e :: rest => do
    let t ← get_type e
    let ts ← get_type_list rest
    .ok (t :: ts)

mutual

/-- The `try` block of one `check_type` invocation on an expression node:
recursion over the children (each child invocation carrying its own handler),
then the match that annotates the node.  Literals and `Ref` nodes match no
case and are returned unchanged. -/
def check_type_expr_body : Expr → Except Exc Expr
  | .boolLit v p => .ok (.boolLit v p)
  | .intLit v p => .ok (.intLit v p)
  | .floatLit s p => .ok (.floatLit s p)
  | .strLit s p => .ok (.strLit s p)
  | .ref r => .ok (.ref r)
  | .unary op arg _ p => do
    let arg2 ← check_type_except_handler (check_type_expr_body arg)
    let argTy ← get_type arg2
    let rty ← check_unary op argTy
    .ok (.unary op arg2 (some rty) p)
  | .binary l op r _ p => do
    let l2 ← check_type_except_handler (check_type_expr_body l)
    let r2 ← check_type_except_handler (check_type_expr_body r)
    let t1 ← get_type l2
    let t2 ← get_type r2
    let rty ← check_binary op t1 t2
    .ok (.binary l2 op r2 (some rty) p)
  | .funcCall f args _ p => do
    let args2 ← check_type_expr_list args
    let atypes ← get_type_list args2
    let obj ← refValue f.scope f.name
    match obj with
    | .builtinFunc _ ptypes rtype => do
      let rty ← check_call ptypes rtype atypes
      .ok (.funcCall f args2 (some rty) p)
    | other => .error (TypeError (declStr other ++ " is not callable"))

/-- Children recursion over an argument list. -/
def check_type_expr_list : List Expr → Except Exc (List Expr)
  | [] => .ok []
  | e :: rest => do
    let e2 ← check_type_except_handler (check_type_expr_body e)
    let rest2 ← check_type_expr_list rest
    .ok (e2 :: rest2)

end

/-- One full `check_type` invocation on an expression node. -/
def check_type_expr (e : Expr) : Except Exc Expr :=
  check_type_except_handler (check_type_expr_body e)

/-- `check_type` on a `TypeRef` node: an unknown type name raises `TypeError`
(then converted by the handler of that invocation). -/
def check_type_typeref (t : TypeRefNode) : Except Exc Unit :=
  check_type_except_handler
    (if (lookupTy t.name).isSome then .ok ()
     else .error (TypeError ("Unknown type: " ++ t.name)))

/-- `check_type` on a `LocalVariable` node: recursion into its `TypeRef`
child; the node itself matches no case. -/
def check_type_localvar (v : LocalVarNode) : Except Exc Unit :=
  check_type_except_handler (check_type_typeref v.type)

/-! The statement nodes of `ast_nodes.py` (the `Statement` union), plus
`Block`, `ElifSection`, `ElseSection`. -/

mutual

inductive Stmt where
  | passStmt (pos : Position)
  | assignment (lvalue : RefNode) (rvalue : Expr) (var : Option LocalVarNode) (pos : Position)
  | update (lvalue : RefNode) (op : String) (rvalue : Expr) (pos : Position)
  | printStmt (args : List Expr) (pos : Position)
  | returnStmt (arg : Option Expr) (pos : Position)
  | ifStmt (condition : Expr) (block : BlockNode) (elifs : List ElifNode)
      (elseSec : Option ElseNode) (pos : Position)
deriving Repr

inductive BlockNode where
  | mk (stmts : List Stmt) (pos : Position)
deriving Repr

inductive ElifNode where
  | mk (condition : Expr) (block : BlockNode) (pos : Position)
deriving Repr

inductive ElseNode where
  | mk (block : BlockNode) (pos : Position)
deriving Repr

end

/-- The `case AssignmentStmt()` match body of `check_type` (`type_check.py`
lines 201-211), entered after the children recursion: resolve the lvalue,
apply the const rule only to non-declaring occurrences, then compare the
resolved left type with the (annotated) right-hand type. -/
def check_type_assignment_match (lv : RefNode) (rv2 : Expr) (var : Option LocalVarNode)
    (p : Position) : Except Exc Stmt := do
  let obj ← refValue lv.scope lv.name
  match obj with
  | .localVariable v =>
    if v.type.isConst && var.isNone then
      .error (TypeError "Cant assign to constants")
    else do
      let ltype ← get_type (.ref lv)
      let rtype ← get_type rv2
      let _ ← check_assign ltype rtype
      .ok (.assignment lv rv2 var p)
  | other => .error (CompilerError ("Unknown lvalue type: obj=" ++ declStr other))

mutual

/-- The `try` block of one `check_type` invocation on a statement node:
children recursion (in the order of the `children` list built by `build_ast`),
then the match on the node kind. -/
def check_type_stmt_body : Stmt → Except Exc Stmt
  | .passStmt p => .ok (.passStmt p)
  | .assignment lv rv var p => do
    let rv2 ← check_type_expr rv
    let _ ← match var with
      | some v => check_type_localvar v
      | none => pure ()
    check_type_assignment_match lv rv2 var p
  | .update lv op rv p => do
    let rv2 ← check_type_expr rv
    let obj ← refValue lv.scope lv.name
    match obj with
    | .localVariable v =>
      if v.type.isConst then .error (TypeError "Cant assign to constants")
      else do
        let ltype ← get_type (.ref lv)
        let rtype ← get_type rv2
        let _ ← check_update op ltype rtype
        .ok (.update lv op rv2 p)
    | other => .error (CompilerError ("Unknown lvalue type: obj=" ++ declStr other))
  | .printStmt args p => do
    let args2 ← check_type_expr_list args
    .ok (.printStmt args2 p)
  | .returnStmt arg p =>
    match arg with
    | some e => do
      let e2 ← check_type_expr e
      .ok (.returnStmt (some e2) p)
    | none => .ok (.returnStmt none p)
  | .ifStmt cond block elifs elseSec p => do
    let cond2 ← check_type_expr cond
    let block2 ← check_type_block block
    let elifs2 ← check_type_elif_list elifs
    let elseSec2 ← match elseSec with
      | some s => do
        let s2 ← check_type_else s
        pure (some s2)
      | none => pure none
    let condTy ← get_type cond2
    if is_convertable_to condTy "float" then
      .ok (.ifStmt cond2 block2 elifs2 elseSec2 p)
    else .error (TypeError "Testexpression type not boolean or numeric")

/-- `check_type` on a `Block` node: children recursion only, no match case. -/
def check_type_block : BlockNode → Except Exc BlockNode
  | .mk stmts p =>
    check_type_except_handler (do
      let stmts2 ← check_type_stmt_list stmts
      .ok (BlockNode.mk stmts2 p))

def check_type_stmt_list : List Stmt → Except Exc (List Stmt)
  | [] => .ok []
  | s :: rest => do
    let s2 ← check_type_except_handler (check_type_stmt_body s)
    let rest2 ← check_type_stmt_list rest
    .ok (s2 :: rest2)

/-- `check_type` on an `ElifSection`: children, then the condition rule. -/
def check_type_elif : ElifNode → Except Exc ElifNode
  | .mk cond block p =>
    check_type_except_handler (do
      let cond2 ← check_type_expr cond
      let block2 ← check_type_block block
      let condTy ← get_type cond2
      if is_convertable_to condTy "float" then .ok (ElifNode.mk cond2 block2 p)
      else .error (TypeError "Condition expression type not boolean or numeric"))

def check_type_elif_list : List ElifNode → Except Exc (List ElifNode)
  | [] => .ok []
  | s :: rest => do
    let s2 ← check_type_elif s
    let rest2 ← check_type_elif_list rest
    .ok (s2 :: rest2)

/-- `check_type` on an `ElseSection`: children recursion only. -/
def check_type_else : ElseNode → Except Exc ElseNode
  | .mk block p =>
    check_type_except_handler (do
      let block2 ← check_type_block block
      .ok (ElseNode.mk block2 p))

end

/-- One full `check_type` invocation on a statement node. -/
def check_type_stmt (s : Stmt) : Except Exc Stmt :=
  check_type_except_handler (check_type_stmt_body s)

/-! ## Claims about the type-checking pass -/

/-- Bind on an `.ok` value reduces to the continuation (definitional). -/
lemma exc_bind_ok {α β : Type} (x : α) (f : α → Except Exc β) :
    ((.ok x : Except Exc α) >>= f) = f x := rfl

/-- The argument loop accepts exactly when every argument type converts to its
positional parameter type. -/
lemma check_call_args_ok_iff (l : List (String × String)) : ∀ i : Nat,
    (check_call_args i l = .ok () ↔ ∀ pa ∈ l, is_convertable_to pa.2 pa.1 = true) := by
  induction l with
  | nil => intro i; simp [check_call_args]
  | cons hd tl ih =>
    intro i
    obtain ⟨pt, aty⟩ := hd
    by_cases h : is_convertable_to aty pt = true
    · simp [check_call_args, h, ih (i + 1)]
    · simp [check_call_args, h]

/-- The argument loop either accepts or raises a `TypeError`. -/
lemma check_call_args_shape (l : List (String × String)) : ∀ i : Nat,
    check_call_args i l = .ok () ∨ ∃ m, check_call_args i l = .error (TypeError m) := by
  induction l with
  | nil => intro i; left; rfl
  | cons hd tl ih =>
    intro i
    obtain ⟨pt, aty⟩ := hd
    by_cases h : is_convertable_to aty pt = true
    · simpa [check_call_args, h] using ih (i + 1)
    · right
      refine ⟨"Parameter count mismatch: argument " ++ toString i ++
        ": Cant convert argument of type " ++ aty ++ " to " ++ pt, ?_⟩
      simp [check_call_args, h]

/-- C4. `TypeEnv.check_call` succeeds with exactly the declared return type
precisely when the argument count equals the parameter count and each argument
type converts to its positional parameter type; any failure is a `TypeError`. -/
theorem call_arity_and_argument_conversion (ptypes : List String) (rtype : String)
    (atypes : List String) :
    (check_call ptypes rtype atypes = .ok rtype ↔
      (ptypes.length = atypes.length ∧
        ∀ pa ∈ ptypes.zip atypes, is_convertable_to pa.2 pa.1 = true)) ∧
    (∀ r, check_call ptypes rtype atypes = .ok r → r = rtype) ∧
    (check_call ptypes rtype atypes ≠ .ok rtype →
      ∃ m, check_call ptypes rtype atypes = .error (TypeError m)) := by
  by_cases hlen : ptypes.length = atypes.length
  · rcases check_call_args_shape (ptypes.zip atypes) 1 with hok | ⟨m, herr⟩
    · have hcc : check_call ptypes rtype atypes = .ok rtype := by
        unfold check_call
        rw [if_neg (not_not_intro hlen), hok]
        rfl
      refine ⟨?_, ?_, ?_⟩
      · rw [hcc]
        exact ⟨fun _ => ⟨hlen, (check_call_args_ok_iff _ 1).mp hok⟩, fun _ => rfl⟩
      · intro r hr
        rw [hcc] at hr
        exact (Except.ok.inj hr).symm
      · intro hne
        exact absurd hcc hne
    · have hcc : check_call ptypes rtype atypes = .error (TypeError m) := by
        unfold check_call
        rw [if_neg (not_not_intro hlen), herr]
        rfl
      refine ⟨?_, ?_, ?_⟩
      · rw [hcc]
        constructor
        · intro h
          exact Except.noConfusion h
        · rintro ⟨_, h2⟩
          have hok := (check_call_args_ok_iff (ptypes.zip atypes) 1).mpr h2
          rw [hok] at herr
          exact Except.noConfusion herr
      · intro r hr
        rw [hcc] at hr
        exact Except.noConfusion hr
      · intro _
        exact ⟨m, hcc⟩
  · have hcc : check_call ptypes rtype atypes =
        .error (TypeError ("Parameter count mismatch: expected " ++
          toString ptypes.length ++ ", got " ++ toString atypes.length)) := by
      unfold check_call
      rw [if_pos hlen]
    refine ⟨?_, ?_, ?_⟩
    · rw [hcc]
      constructor
      · intro h
        exact Except.noConfusion h
      · rintro ⟨h1, _⟩
        exact absurd h1 hlen
    · intro r hr
      rw [hcc] at hr
      exact Except.noConfusion hr
    · intro _
      exact ⟨_, hcc⟩

/-- Witness for C4: the built-in `sqrt` with signature `(float) -> float`
applied to one `int` argument is accepted, with result type `float`. -/
theorem call_arity_and_argument_conversion_witness :
    check_call ["float"] "float" ["int"] = .ok "float" :=
  (call_arity_and_argument_conversion ["float"] "float" ["int"]).1.mpr
    ⟨rfl, by decide⟩

/-- The position used by the concrete programs below. -/
def pos0 : Position := { file := "input.ffsl", line := 1, col := 1 }

/-- C5. At the concrete node `1 + "a"`, the `try` body of `check_type` raises
`TypeError` with no position, but the `except CodeError` handler of that same
invocation - which per the design should attach the visited node position -
instead replaces it with an unpositioned `AttributeError` (its body reads
`e.line`, an attribute `CodeError` does not define).  `node_error_attributer`,
the wrapper used by the other passes, shows the intended behaviour on the same
error: the position is attached and the error kind preserved. -/
theorem check_type_handler_loses_position :
    check_type_expr_body (.binary (.intLit 1 pos0) "+" (.strLit "a" pos0) none pos0) =
      .error (TypeError "Binary + not supported for type str") ∧
    check_type_expr (.binary (.intLit 1 pos0) "+" (.strLit "a" pos0) none pos0) =
      .error { kind := .attributeError, msg := "CodeError object has no attribute line",
               pos := none } ∧
    node_error_attributer pos0
        (.error (TypeError "Binary + not supported for type str") : Except Exc Expr) =
      .error { kind := .typeError, msg := "Binary + not supported for type str",
               pos := some pos0 } :=
  ⟨rfl, rfl, rfl⟩

/-- The declared type, variable and chain of `x: int = "hello"`. -/
def xTypeRef : TypeRefNode := { isConst := false, name := "int", pos := pos0 }

/-- The fresh `LocalVariable` of the declaring occurrence of `x`. -/
def xVar : LocalVarNode := { name := "x", type := xTypeRef, pos := pos0 }

/-- The chain `build_scope` records on the `x` reference. -/
def xChain : Chain := [[("x", Decl.localVariable xVar)]]

/-- The declaring assignment `x: int = "hello"` after scope-building. -/
def xDeclAssign : Stmt :=
  .assignment { name := "x", scope := some xChain, pos := pos0 }
    (.strLit "hello" pos0) (some xVar) pos0

/-- Counterexample to C3 as stated: a declaring occurrence (fresh
`LocalVariable` present) is not always permitted - `x: int = "hello"` is
rejected with a `TypeError`, because the conversion check also runs on
declaring occurrences. -/
theorem assignment_declaring_occurrence_rejected :
    check_type_stmt_body xDeclAssign =
      .error (TypeError "Cant assign expression of type int to variable of type str") :=
  rfl

/-- C3 (amended). For an assignment whose lvalue resolves to a local variable:
a declaring occurrence (fresh `LocalVariable`) is exempt from the const rule
only; re-assignment to a const-qualified variable raises `TypeError`; in every
other case - declaring occurrences included - the right-hand type must convert
to the declared left-hand type, with `TypeError` exactly when it does not. -/
theorem assignment_const_and_conversion_rules
    (lv : RefNode) (rv rv2 : Expr) (var : Option LocalVarNode) (p : Position)
    (v : LocalVarNode) (rtype : String)
    (hlv : refValue lv.scope lv.name = .ok (.localVariable v))
    (hrv : check_type_expr rv = .ok rv2)
    (hvar : ∀ w, var = some w → check_type_localvar w = .ok ())
    (hrt : get_type rv2 = .ok rtype) :
    check_type_stmt_body (.assignment lv rv var p) =
      (if v.type.isConst && var.isNone then
        .error (TypeError "Cant assign to constants")
      else if is_convertable_to rtype v.type.name then
        .ok (.assignment lv rv2 var p)
      else
        .error (TypeError ("Cant assign expression of type " ++ v.type.name ++
          " to variable of type " ++ rtype))) := by
  have hlt : get_type (.ref lv) = .ok v.type.name := by
    simp only [get_type]
    rw [hlv]
    rfl
  have hbody : check_type_stmt_body (.assignment lv rv var p) =
      check_type_assignment_match lv rv2 var p := by
    simp only [check_type_stmt_body]
    rw [hrv, exc_bind_ok]
    cases var with
    | none => rfl
    | some w =>
      simp only [hvar w rfl]
      rfl
  rw [hbody]
  unfold check_type_assignment_match
  rw [hlv, exc_bind_ok]
  dsimp only
  by_cases hc : (v.type.isConst && var.isNone) = true
  · rw [if_pos hc, if_pos hc]
  · rw [if_neg hc, if_neg hc]
    rw [hlt, exc_bind_ok, hrt, exc_bind_ok]
    unfold check_assign
    by_cases hconv : is_convertable_to rtype v.type.name = true
    · rw [if_neg (not_not_intro hconv), if_pos hconv]
      rfl
    · rw [if_pos hconv, if_neg hconv]
      rfl

/-- The declared type, variable and chain of `y: const int`. -/
def yTypeRef : TypeRefNode := { isConst := true, name := "int", pos := pos0 }

/-- The const-qualified local variable `y`. -/
def yVar : LocalVarNode := { name := "y", type := yTypeRef, pos := pos0 }

/-- The chain recorded on the `y` reference. -/
def yChain : Chain := [[("y", Decl.localVariable yVar)]]

/-- Witness for C3: the re-assignment `y = 6` to `y: const int` (no fresh
`LocalVariable`) raises the const `TypeError`. -/
theorem assignment_const_and_conversion_rules_witness :
    check_type_stmt_body
        (.assignment { name := "y", scope := some yChain, pos := pos0 }
          (.intLit 6 pos0) none pos0) =
      .error (TypeError "Cant assign to constants") := by
  have h := assignment_const_and_conversion_rules
    { name := "y", scope := some yChain, pos := pos0 } (.intLit 6 pos0) (.intLit 6 pos0)
    none pos0 yVar "int" rfl rfl (fun w hw => by cases hw) rfl
  rw [h]
  rfl

/-! ## Code generation (`codegen.py`) -/

/-- `codegen.mangle`: the fixed name-prefixing scheme. -/
def mangle (name : String) : String := "_" ++ name

/-- `codegen.BUILTIN_FN_NAME`: the native-name translation table. -/
def BUILTIN_FN_NAME : List (String × String) := [("sqrt", "std::sqrt")]

/-- Python dict lookup returning `none` where subscripting raises `KeyError`. -/
def dictGet {α : Type} : List (String × α) → String → Option α
  | [], _ => none
  | (k, v) :: rest, name => if k = name then some v else dictGet rest name

mutual

/-- `codegen.codegen_expr` (without the `JsonExpr` case, see `Expr`): the
recursive expression-to-text mapping.  The `FuncCall` case generates the
argument texts, resolves the callee, and subscripts `BUILTIN_FN_NAME` with the
built-in name - a raw dict access, so a missing entry raises `KeyError`. -/
def codegen_expr : Expr → Except Exc String
  | .boolLit true _ => .ok "true"
  | .boolLit false _ => .ok "false"
  | .intLit v _ => .ok (toString v)
  | .floatLit s _ => .ok s
  | .strLit s _ => .ok ("\"" ++ s ++ "\"")
  | .ref r => .ok (mangle r.name)
  | .unary op arg _ _ => do
    let a ← codegen_expr arg
    .ok ("( " ++ op ++ " (" ++ a ++ ") )")
  | .binary l op r _ _ => do
    let ls ← codegen_expr l
    let rs ← codegen_expr r
    if op = "**" then .ok ("std::pow( (" ++ ls ++ "), (" ++ rs ++ ") )")
    else .ok ("( (" ++ ls ++ ") " ++ op ++ " (" ++ rs ++ ") )")
  | .funcCall f args _ _ => do
    let texts ← codegen_expr_list args
    let joined := String.intercalate ", " texts
    let obj ← refValue f.scope f.name
    match obj with
    | .builtinFunc nm _ _ =>
      match dictGet BUILTIN_FN_NAME nm with
      | some cname => .ok (cname ++ "(" ++ joined ++ ")")
      | none => .error { kind := .keyError, msg := nm, pos := none }
    | other => .error (CompilerError ("unexpected function value unexpected=" ++ declStr other))

def codegen_expr_list : List Expr → Except Exc (List String)
  | [] => .ok []
  | e :: rest => do
    let s ← codegen_expr e
    let ss ← codegen_expr_list rest
    .ok (s :: ss)

end

/-- A scope chain binding the built-in name `cbrt` (a `BuiltinFunc` with no
`BUILTIN_FN_NAME` entry). -/
def cbrtChain : Chain := [[("cbrt", Decl.builtinFunc "cbrt" ["float"] "float")]]

/-- Counterexample to C8 as stated: generating code for a call to the built-in
`cbrt`, which has no registered native-name translation, fails with a raw
`KeyError` - not with the compiler-internal error kind. -/
theorem codegen_missing_builtin_not_compiler_error :
    codegen_expr (.funcCall { name := "cbrt", scope := some cbrtChain, pos := pos0 }
        [.intLit 2 pos0] none pos0) =
      .error { kind := .keyError, msg := "cbrt", pos := none } ∧
    ¬ ∃ m, codegen_expr (.funcCall { name := "cbrt", scope := some cbrtChain, pos := pos0 }
        [.intLit 2 pos0] none pos0) = .error (CompilerError m) := by
  constructor
  · rfl
  · rintro ⟨m, hm⟩
    rw [show codegen_expr (.funcCall { name := "cbrt", scope := some cbrtChain, pos := pos0 }
        [.intLit 2 pos0] none pos0) =
      .error { kind := .keyError, msg := "cbrt", pos := none } from rfl] at hm
    have := (Except.error.inj hm)
    exact ExcKind.noConfusion (congrArg Exc.kind this)

/-- C8 (amended). A call whose callee resolves to a `BuiltinFunc` with no
`BUILTIN_FN_NAME` entry makes `codegen_expr` fail - but with an unclassified
`KeyError` from the raw dict subscript, not the compiler-internal error kind. -/
theorem codegen_missing_builtin_raises_keyerror
    (f : RefNode) (args : List Expr) (ty : Option String) (p : Position)
    (nm : String) (ptypes : List String) (rtype : String) (texts : List String)
    (hargs : codegen_expr_list args = .ok texts)
    (hf : refValue f.scope f.name = .ok (.builtinFunc nm ptypes rtype))
    (hmiss : dictGet BUILTIN_FN_NAME nm = none) :
    codegen_expr (.funcCall f args ty p) =
      .error { kind := .keyError, msg := nm, pos := none } := by
  simp only [codegen_expr]
  rw [hargs, exc_bind_ok, hf, exc_bind_ok]
  simp only [hmiss]

/-- Witness for C8: a call to a built-in `pow10` with no translation entry. -/
theorem codegen_missing_builtin_raises_keyerror_witness :
    codegen_expr (.funcCall
        { name := "pow10", scope := some [[("pow10", Decl.builtinFunc "pow10" ["int"] "float")]],
          pos := pos0 } [] none pos0) =
      .error { kind := .keyError, msg := "pow10", pos := none } :=
  codegen_missing_builtin_raises_keyerror
    { name := "pow10", scope := some [[("pow10", Decl.builtinFunc "pow10" ["int"] "float")]],
      pos := pos0 } [] none pos0 "pow10" ["int"] "float" [] rfl rfl rfl

/-! ## Local-variable harvesting (`parser.collect_local_varaibles`) -/

/-- `ast_nodes.Func`, restricted to the annotation fields the harvesting pass
reads and writes plus its declaration fields (the body block is irrelevant to
the pass, which inspects only the recorded private frame). -/
structure FuncNode where
  name : String
  params : List ParameterNode
  rtype : Option TypeRefNode
  lvars : List LocalVarNode
  scope : Option Chain
deriving DecidableEq, Repr

/-- `isinstance(var, LocalVariable)` as a partial projection. -/
def localVarOf : Decl → Option LocalVarNode
  | .localVariable v => some v
  | _ => none

/-- The `Func` case of `collect_local_varaibles` (`parser.py` lines 395-405):
assert the private frame was recorded, scan its direct entries
(`func.scope.maps[0].values()`, i.e. insertion order) and append every
`LocalVariable` to `func.lvars`.  The recursion of the pass dispatches this
step once per `Func` node of the single-owner tree.  `ChainMap.maps` is never
empty; its `[]` case is modelled as the `IndexError` a `maps[0]` access would
raise. -/
def collect_local_varaibles (f : FuncNode) : Except Exc FuncNode :=
  match f.scope with
  | none => .error (AssertionError "func.scope is not None")
  | some [] => .error { kind := .runtimeError, msg := "IndexError", pos := none }
  | some (frame :: _) =>
    .ok { f with lvars := f.lvars ++ (frame.map Prod.snd).filterMap localVarOf }

/-- `localVarOf` is injective where defined. -/
lemma localVarOf_inj : ∀ a b : Decl, ∀ c : LocalVarNode,
    c ∈ localVarOf a → c ∈ localVarOf b → a = b := by
  intro a b c ha hb
  cases a <;> simp [localVarOf] at ha
  cases b <;> simp [localVarOf] at hb
  rw [ha, hb]

/-- C9. After harvesting runs (once, on a function whose `lvars` is still the
empty construction default and whose private frame was recorded by
scope-building, registering each declaration object once): the harvested
`lvars` is exactly the `LocalVariable` subsequence of the frame values in
insertion order; every `LocalVariable` of the frame occurs in it exactly once;
and nothing else occurs in it. -/
theorem collected_lvars_exactly_frame_local_variables
    (f : FuncNode) (frame : Frame) (rest : List Frame)
    (h0 : f.lvars = []) (h1 : f.scope = some (frame :: rest))
    (h2 : (frame.map Prod.snd).Nodup) :
    ∃ f2, collect_local_varaibles f = .ok f2 ∧
      f2.lvars = (frame.map Prod.snd).filterMap localVarOf ∧
      (∀ v : LocalVarNode, Decl.localVariable v ∈ frame.map Prod.snd →
        f2.lvars.count v = 1) ∧
      (∀ v ∈ f2.lvars, Decl.localVariable v ∈ frame.map Prod.snd) := by
  refine ⟨{ f with lvars := f.lvars ++ (frame.map Prod.snd).filterMap localVarOf }, ?_, ?_, ?_, ?_⟩
  · rw [collect_local_varaibles, h1]
  · simp [h0]
  · intro v hv
    have hnd : ((frame.map Prod.snd).filterMap localVarOf).Nodup :=
      List.Nodup.filterMap localVarOf_inj h2
    have hmem : v ∈ (frame.map Prod.snd).filterMap localVarOf := by
      rw [List.mem_filterMap]
      exact ⟨Decl.localVariable v, hv, rfl⟩
    simp only [h0, List.nil_append]
    exact List.count_eq_one_of_mem hnd hmem
  · intro v hv
    simp only [h0, List.nil_append, List.mem_filterMap] at hv
    obtain ⟨d, hd, hdv⟩ := hv
    cases d <;> simp [localVarOf] at hdv
    rwa [hdv] at hd

/-- Witness for C9: a function with two locals and one parameter in its
private frame harvests exactly the two locals, in insertion order. -/
theorem collected_lvars_exactly_frame_local_variables_witness :
    ∃ f2, collect_local_varaibles
        { name := "step", params := [], rtype := none, lvars := [],
          scope := some [[("a", Decl.localVariable xVar),
                          ("p", Decl.parameter { name := "p", type := xTypeRef, pos := pos0 }),
                          ("b", Decl.localVariable yVar)], []] } = .ok f2 ∧
      f2.lvars = [xVar, yVar] := by
  obtain ⟨f2, hcoll, hlv, _, _⟩ := collected_lvars_exactly_frame_local_variables
    { name := "step", params := [], rtype := none, lvars := [],
      scope := some [[("a", Decl.localVariable xVar),
                      ("p", Decl.parameter { name := "p", type := xTypeRef, pos := pos0 }),
                      ("b", Decl.localVariable yVar)], []] }
    [("a", Decl.localVariable xVar),
     ("p", Decl.parameter { name := "p", type := xTypeRef, pos := pos0 }),
     ("b", Decl.localVariable yVar)]
    [[]] rfl rfl (by decide)
  refine ⟨f2, hcoll, ?_⟩
  rw [hlv]
  rfl
